import Mathlib

/-!
Verification of the cached network-status component
(`core/bin/zksync_api/src/api_server/rest/network_status.rs`).

The component keeps one `NetworkStatus` snapshot in a shared cell
(`SharedNetworkStatus`, an `Arc<RwLock<NetworkStatus>>`), refreshed by
`update` from a storage backend and read by `read`.  We embed the value
type, the fallible storage queries, and the control flow of `update`
shallowly: machine integers (`u32` block numbers and counters) become
`Nat` (no arithmetic is performed on them), Rust `Result<_, anyhow::Error>`
becomes `Except String _`, and the store cell becomes explicit state
passing.
-/

/-- The `NetworkStatus` value type (source lines 11–19).  In Rust,
`next_block_at_max : Option<u64>`, `last_committed`/`last_verified` are
`BlockNumber` (a `u32` newtype), and the three counters are `u32`. -/
structure NetworkStatus where
  next_block_at_max : Option Nat
  last_committed : Nat
  last_verified : Nat
  total_transactions : Nat
  outstanding_txs : Nat
  mempool_size : Nat
deriving DecidableEq, Repr

/-- The `#[derive(Default)]` value of `NetworkStatus`: `None` for the
option field, `0` for every numeric field. -/
def NetworkStatus.default : NetworkStatus :=
  { next_block_at_max := none
    last_committed := 0
    last_verified := 0
    total_transactions := 0
    outstanding_txs := 0
    mempool_size := 0 }

/-- The content of the shared cell.  `SharedNetworkStatus` wraps
`Arc<RwLock<NetworkStatus>>`; in the embedding we carry the locked value
itself and pass it explicitly. -/
abbrev SharedNetworkStatus := NetworkStatus

/-- `SharedNetworkStatus::read` (source lines 25–27): clone the value
under the read lock.  Total — there is no error path. -/
def SharedNetworkStatus.read (st : SharedNetworkStatus) : NetworkStatus :=
  st

/-- The write at source line 84, `*self.0.as_ref().write().await = status`:
the whole value is swapped atomically under the write lock. -/
def SharedNetworkStatus.replace (st new : SharedNetworkStatus) :
    SharedNetworkStatus :=
  new

/-- Rust `Result::unwrap_or`: the payload on success, the fallback on
failure. -/
def unwrapOr {α : Type} (r : Except String α) (d : α) : α :=
  match r with
  | .ok v => v
  | .error _ => d

/-- One run's view of the storage backend used by `update`: the two
fallible setup steps (`access_storage`, `start_transaction`), the five
fallible read queries, and the fallible `commit`.  Each field records the
outcome the external store returns in this run. -/
structure StorageAccess where
  access_storage : Except String Unit
  start_transaction : Except String Unit
  get_last_verified_confirmed_block : Except String Nat
  get_last_committed_block : Except String Nat
  count_total_transactions : Except String Nat
  get_mempool_size : Except String Nat
  count_outstanding_proofs : Nat → Except String Nat
  commit : Except String Unit

/-- The snapshot assembled at source lines 72–79 from the five sub-query
results, each downgraded to `0` by `unwrap_or`; `count_outstanding_proofs`
is invoked at the `last_verified` value just computed (source line 68). -/
def assembledStatus (ds : StorageAccess) : NetworkStatus :=
  let last_verified := unwrapOr ds.get_last_verified_confirmed_block 0
  let last_committed := unwrapOr ds.get_last_committed_block 0
  let total_transactions := unwrapOr ds.count_total_transactions 0
  let mempool_size := unwrapOr ds.get_mempool_size 0
  let outstanding_txs := unwrapOr (ds.count_outstanding_proofs last_verified) 0
  { next_block_at_max := none
    last_committed := last_committed
    last_verified := last_verified
    total_transactions := total_transactions
    outstanding_txs := outstanding_txs
    mempool_size := mempool_size }

/-- `SharedNetworkStatus::update` (source lines 29–86).  The two setup
steps propagate their error with `?` and leave the cell untouched; once
both succeed, the five sub-queries are fetched with `unwrap_or` fallbacks,
the snapshot is assembled with `next_block_at_max: None`, the commit
result is discarded (`unwrap_or_default()`), the cell is overwritten, and
`Ok(())` is returned.  The result pairs the returned `Result` with the
cell's content after the call. -/
def SharedNetworkStatus.update (ds : StorageAccess) (st : SharedNetworkStatus) :
    Except String Unit × SharedNetworkStatus :=
  match ds.access_storage with
  | .error e => (.error e, st)
  | .ok _ =>
    match ds.start_transaction with
    | .error e => (.error e, st)
    | .ok _ =>
      let status := assembledStatus ds
      let _ := unwrapOr ds.commit ()
      (.ok (), SharedNetworkStatus.replace st status)

/-- One operation on the shared cell, as seen by the store: a `replace`
(the publish at source line 84) or a `read` (source lines 25–27). -/
inductive StoreOp where
  | replace (s : NetworkStatus)
  | read
deriving DecidableEq, Repr

/-- Run a linearized sequence of store operations from a given cell
content, collecting the value each `read` returns.  The `RwLock`
serializes the operations, so any interleaving of calls is one such
sequence. -/
def runReads : List StoreOp → SharedNetworkStatus → List NetworkStatus
  | [], _ => []
  | .replace s :: ops, st => runReads ops (SharedNetworkStatus.replace st s)
  | .read :: ops, st => SharedNetworkStatus.read st :: runReads ops st

/-- The snapshots published (`replace`d) in a sequence of operations. -/
def publishedSnapshots : List StoreOp → List NetworkStatus
  | [] => []
  | .replace s :: ops => s :: publishedSnapshots ops
  | .read :: ops => publishedSnapshots ops

/-- One tick of the refresh loop body (source lines 101–106): call
`update`; on error only log (`vlog::error!`), keeping the previous cell
content. -/
def updaterTick (ds : StorageAccess) (st : SharedNetworkStatus) :
    SharedNetworkStatus :=
  (SharedNetworkStatus.update ds st).2

/-- The refresh loop run over a finite list of per-tick backend outcomes,
starting from a given cell content. -/
def runUpdater : List StorageAccess → SharedNetworkStatus → SharedNetworkStatus
  | [], st => st
  | ds :: rest, st => runUpdater rest (updaterTick ds st)

/-- The tick period, in milliseconds, of the loop spawned by
`start_updater_detached` (source lines 87–111).  The Rust signature is
`start_updater_detached(self, panic_notify: mpsc::Sender<bool>,
connection_pool: ConnectionPool)`; the period is the constant
`Duration::from_millis(30000)` at source line 100 and does not depend on
either parameter. -/
def start_updater_detached_period_ms (panic_notify : Bool)
    (connection_pool : StorageAccess) : Nat :=
  30000

/-! ## Helper lemmas -/

/-- When both setup steps succeed, `update` returns `Ok(())` and the cell
holds exactly the assembled snapshot. -/
theorem update_opens_ok (ds : StorageAccess) (st : SharedNetworkStatus)
    (h1 : ds.access_storage = .ok ())
    (h2 : ds.start_transaction = .ok ()) :
    SharedNetworkStatus.update ds st = (.ok (), assembledStatus ds) := by
  unfold SharedNetworkStatus.update
  rw [h1, h2]
  rfl

/-- Every value returned by a `read` in a linearized operation sequence is
the starting cell content or one of the snapshots `replace`d in the
sequence. -/
theorem runReads_mem (ops : List StoreOp) (st v : NetworkStatus)
    (hv : v ∈ runReads ops st) :
    v = st ∨ v ∈ publishedSnapshots ops := by
  induction ops generalizing st with
  | nil => simp [runReads] at hv
  | cons op rest ih =>
    cases op with
    | replace s =>
      rcases ih (SharedNetworkStatus.replace st s) hv with h | h
      · exact Or.inr (by simp [publishedSnapshots, SharedNetworkStatus.replace] at h ⊢; exact Or.inl h)
      · exact Or.inr (by simp [publishedSnapshots]; exact Or.inr h)
    | read =>
      rcases List.mem_cons.mp hv with h | h
      · exact Or.inl h
      · rcases ih st h with h1 | h1
        · exact Or.inl h1
        · exact Or.inr (by simp [publishedSnapshots]; exact h1)

/-- A tick of the refresh loop never makes `next_block_at_max` present:
on setup failure the cell is unchanged, otherwise the assembled snapshot
carries `None`. -/
theorem updaterTick_next_none (ds : StorageAccess) (st : SharedNetworkStatus)
    (h : st.next_block_at_max = none) :
    (updaterTick ds st).next_block_at_max = none := by
  unfold updaterTick SharedNetworkStatus.update
  cases hacc : ds.access_storage with
  | error e => simpa using h
  | ok u =>
    cases htx : ds.start_transaction with
    | error e => simpa using h
    | ok u2 => simp [SharedNetworkStatus.replace, assembledStatus]

/-! ## Concrete fixtures -/

/-- The snapshot of the spec's worked scenario: `last_committed = 105`,
`last_verified = 100`, `total_transactions = 5000`, `outstanding_txs = 3`,
`mempool_size = 12`, `next_block_at_max` absent. -/
def sampleStatus : NetworkStatus :=
  { next_block_at_max := none
    last_committed := 105
    last_verified := 100
    total_transactions := 5000
    outstanding_txs := 3
    mempool_size := 12 }

/-- A backend run matching the spec's scenario: setup succeeds and the
five queries return `100`, `105`, `5000`, `12` and, at block `100`, `3`;
the outstanding-proof query and the commit outcome are parameters. -/
def scenarioBackend (outs : Nat → Except String Nat)
    (commitRes : Except String Unit) : StorageAccess :=
  { access_storage := .ok ()
    start_transaction := .ok ()
    get_last_verified_confirmed_block := .ok 100
    get_last_committed_block := .ok 105
    count_total_transactions := .ok 5000
    get_mempool_size := .ok 12
    count_outstanding_proofs := outs
    commit := commitRes }

/-- A concrete outstanding-proof query succeeding only at block `100`. -/
def outsAt100 : Nat → Except String Nat :=
  fun b => if b = 100 then .ok 3 else .error "unexpected block"

/-- The scenario backend with only the mempool-size query failing. -/
def mempoolFailBackend : StorageAccess :=
  { scenarioBackend outsAt100 (.ok ()) with
    get_mempool_size := .error "mempool query failed" }

/-- A backend whose connection acquisition fails. -/
def openFailBackend : StorageAccess :=
  { scenarioBackend outsAt100 (.ok ()) with
    access_storage := .error "no connection" }

/-- A backend run where setup succeeds but all five sub-queries and the
commit fail. -/
def allFailBackend : StorageAccess :=
  { access_storage := .ok ()
    start_transaction := .ok ()
    get_last_verified_confirmed_block := .error "q1 failed"
    get_last_committed_block := .error "q2 failed"
    count_total_transactions := .error "q3 failed"
    get_mempool_size := .error "q4 failed"
    count_outstanding_proofs := fun _ => .error "q5 failed"
    commit := .error "commit failed" }

/-! ## Claim theorems -/

/-- Claim C1: for all sequences of `replace` calls interleaved with `read`
calls on the Cached Status Store, every `read` returns a value equal to
some single published snapshot or the initial default, never a mix of
fields from two different snapshots. -/
theorem read_atomicity (ops : List StoreOp) (v : NetworkStatus)
    (hv : v ∈ runReads ops NetworkStatus.default) :
    v = NetworkStatus.default ∨ v ∈ publishedSnapshots ops :=
  runReads_mem ops NetworkStatus.default v hv

/-- Witness for C1: in the sequence `replace sampleStatus; read`, the
read returns `sampleStatus`, which is a published snapshot. -/
theorem read_atomicity_witness :
    sampleStatus ∈
        runReads [StoreOp.replace sampleStatus, StoreOp.read]
          NetworkStatus.default ∧
      (sampleStatus = NetworkStatus.default ∨
        sampleStatus ∈
          publishedSnapshots [StoreOp.replace sampleStatus, StoreOp.read]) :=
  ⟨by decide,
    read_atomicity [StoreOp.replace sampleStatus, StoreOp.read] sampleStatus
      (by decide)⟩

/-- Claim C2: in every run of `update` where the data source returns
`last_verified = 100`, `last_committed = 105`, `total_transactions = 5000`,
`mempool_size = 12` and `outstanding_txs(100) = 3`, the call returns `Ok`
and a subsequent `read` returns exactly the snapshot
`{next_block_at_max: absent, last_committed: 105, last_verified: 100,
total_transactions: 5000, outstanding_txs: 3, mempool_size: 12}`. -/
theorem refresh_scenario_exact (outs : Nat → Except String Nat)
    (commitRes : Except String Unit) (st : SharedNetworkStatus)
    (houts : outs 100 = .ok 3) :
    (SharedNetworkStatus.update (scenarioBackend outs commitRes) st).1 =
        .ok () ∧
      SharedNetworkStatus.read
          (SharedNetworkStatus.update (scenarioBackend outs commitRes) st).2 =
        sampleStatus := by
  rw [update_opens_ok (scenarioBackend outs commitRes) st rfl rfl]
  refine ⟨rfl, ?_⟩
  simp [SharedNetworkStatus.read, assembledStatus, scenarioBackend, unwrapOr,
    houts, sampleStatus]

/-- Witness for C2: the scenario run with the concrete outstanding-proof
query `outsAt100` and a successful commit, starting from the default
snapshot. -/
theorem refresh_scenario_exact_witness :
    outsAt100 100 = .ok 3 ∧
      ((SharedNetworkStatus.update (scenarioBackend outsAt100 (.ok ()))
              NetworkStatus.default).1 =
          .ok () ∧
        SharedNetworkStatus.read
            (SharedNetworkStatus.update (scenarioBackend outsAt100 (.ok ()))
                NetworkStatus.default).2 =
          sampleStatus) :=
  ⟨rfl,
    refresh_scenario_exact outsAt100 (.ok ()) NetworkStatus.default rfl⟩

/-- Claim C6: before any refresh or replace has occurred, `read` always
succeeds and returns the zero-valued default: `last_committed = 0`,
`last_verified = 0`, `total_transactions = 0`, `outstanding_txs = 0`,
`mempool_size = 0`, `next_block_at_max` absent. -/
theorem read_default_before_replace (ops : List StoreOp) (v : NetworkStatus)
    (hpub : publishedSnapshots ops = [])
    (hv : v ∈ runReads ops NetworkStatus.default) :
    v = { next_block_at_max := none
          last_committed := 0
          last_verified := 0
          total_transactions := 0
          outstanding_txs := 0
          mempool_size := 0 } := by
  rcases runReads_mem ops NetworkStatus.default v hv with h | h
  · exact h
  · rw [hpub] at h
    exact absurd h (List.not_mem_nil v)

/-- Witness for C6: a sequence of two bare reads returns the zero-valued
default. -/
theorem read_default_before_replace_witness :
    publishedSnapshots [StoreOp.read, StoreOp.read] = [] ∧
      NetworkStatus.default ∈
        runReads [StoreOp.read, StoreOp.read] NetworkStatus.default ∧
      NetworkStatus.default =
        { next_block_at_max := none
          last_committed := 0
          last_verified := 0
          total_transactions := 0
          outstanding_txs := 0
          mempool_size := 0 } :=
  ⟨by decide, by decide,
    read_default_before_replace [StoreOp.read, StoreOp.read]
      NetworkStatus.default (by decide) (by decide)⟩

/-- Claim C3: once the transaction opens, each of the five sub-queries is
independently downgraded to `0` on failure; in particular, when exactly
one fails (here the mempool-size query, in the spec's scenario values) a
snapshot is still published with the failed field `0` and the other four
fields reflecting the successful values. -/
theorem sub_query_independent_fallbacks (ds : StorageAccess)
    (st : SharedNetworkStatus)
    (h1 : ds.access_storage = .ok ())
    (h2 : ds.start_transaction = .ok ()) :
    ((SharedNetworkStatus.update ds st).1 = .ok () ∧
      (SharedNetworkStatus.update ds st).2 =
        { next_block_at_max := none
          last_committed := unwrapOr ds.get_last_committed_block 0
          last_verified := unwrapOr ds.get_last_verified_confirmed_block 0
          total_transactions := unwrapOr ds.count_total_transactions 0
          outstanding_txs :=
            unwrapOr
              (ds.count_outstanding_proofs
                (unwrapOr ds.get_last_verified_confirmed_block 0)) 0
          mempool_size := unwrapOr ds.get_mempool_size 0 }) ∧
      SharedNetworkStatus.update mempoolFailBackend NetworkStatus.default =
        (.ok (),
          { next_block_at_max := none
            last_committed := 105
            last_verified := 100
            total_transactions := 5000
            outstanding_txs := 3
            mempool_size := 0 }) := by
  refine ⟨⟨?_, ?_⟩, ?_⟩
  · rw [update_opens_ok ds st h1 h2]
  · rw [update_opens_ok ds st h1 h2]
    simp [assembledStatus]
  · rfl

/-- Witness for C3: the spec's one-failure scenario backend opens
successfully, and the theorem instantiates at it. -/
theorem sub_query_independent_fallbacks_witness :
    mempoolFailBackend.access_storage = .ok () ∧
      (((SharedNetworkStatus.update mempoolFailBackend
              NetworkStatus.default).1 =
          .ok () ∧
        (SharedNetworkStatus.update mempoolFailBackend
              NetworkStatus.default).2 =
          { next_block_at_max := none
            last_committed :=
              unwrapOr mempoolFailBackend.get_last_committed_block 0
            last_verified :=
              unwrapOr mempoolFailBackend.get_last_verified_confirmed_block 0
            total_transactions :=
              unwrapOr mempoolFailBackend.count_total_transactions 0
            outstanding_txs :=
              unwrapOr
                (mempoolFailBackend.count_outstanding_proofs
                  (unwrapOr
                    mempoolFailBackend.get_last_verified_confirmed_block 0)) 0
            mempool_size :=
              unwrapOr mempoolFailBackend.get_mempool_size 0 }) ∧
        SharedNetworkStatus.update mempoolFailBackend NetworkStatus.default =
          (.ok (),
            { next_block_at_max := none
              last_committed := 105
              last_verified := 100
              total_transactions := 5000
              outstanding_txs := 3
              mempool_size := 0 })) :=
  ⟨rfl,
    sub_query_independent_fallbacks mempoolFailBackend NetworkStatus.default
      rfl rfl⟩

/-- Claim C4: when acquiring the storage connection or starting the
transaction fails, `update` returns that error and the cell's content
after the attempt equals its content before the attempt. -/
theorem open_failure_preserves_snapshot (ds : StorageAccess)
    (st : SharedNetworkStatus) (e : String)
    (h : ds.access_storage = .error e ∨
      (ds.access_storage = .ok () ∧ ds.start_transaction = .error e)) :
    SharedNetworkStatus.update ds st = (.error e, st) := by
  unfold SharedNetworkStatus.update
  rcases h with h | ⟨h1, h2⟩
  · rw [h]
  · rw [h1, h2]

/-- Witness for C4: a backend whose connection acquisition fails leaves a
previously populated snapshot untouched. -/
theorem open_failure_preserves_snapshot_witness :
    (openFailBackend.access_storage = .error "no connection" ∨
      (openFailBackend.access_storage = .ok () ∧
        openFailBackend.start_transaction = .error "no connection")) ∧
      SharedNetworkStatus.update openFailBackend sampleStatus =
        (.error "no connection", sampleStatus) :=
  ⟨Or.inl rfl,
    open_failure_preserves_snapshot openFailBackend sampleStatus
      "no connection" (Or.inl rfl)⟩

/-- Claim C5: after the five values are computed, a failing commit does
not prevent publication: the assembled snapshot is written to the cell,
`Ok` is returned, and the whole call result is the same as with a
successful commit. -/
theorem commit_failure_still_publishes (ds : StorageAccess)
    (st : SharedNetworkStatus) (e : String)
    (h1 : ds.access_storage = .ok ())
    (h2 : ds.start_transaction = .ok ())
    (hc : ds.commit = .error e) :
    SharedNetworkStatus.update ds st = (.ok (), assembledStatus ds) ∧
      SharedNetworkStatus.update ds st =
        SharedNetworkStatus.update { ds with commit := .ok () } st := by
  refine ⟨update_opens_ok ds st h1 h2, ?_⟩
  rw [update_opens_ok ds st h1 h2,
    update_opens_ok { ds with commit := .ok () } st h1 h2]
  simp [assembledStatus]

/-- Witness for C5: the scenario backend with a failing commit still
publishes its assembled snapshot. -/
theorem commit_failure_still_publishes_witness :
    (scenarioBackend outsAt100 (.error "commit failed")).commit =
        .error "commit failed" ∧
      (SharedNetworkStatus.update
            (scenarioBackend outsAt100 (.error "commit failed"))
            NetworkStatus.default =
          (.ok (),
            assembledStatus (scenarioBackend outsAt100 (.error "commit failed"))) ∧
        SharedNetworkStatus.update
            (scenarioBackend outsAt100 (.error "commit failed"))
            NetworkStatus.default =
          SharedNetworkStatus.update
            { scenarioBackend outsAt100 (.error "commit failed") with
              commit := .ok () }
            NetworkStatus.default) :=
  ⟨rfl,
    commit_failure_still_publishes (scenarioBackend outsAt100 (.error "commit failed"))
      NetworkStatus.default "commit failed" rfl rfl rfl⟩

/-- Claim C7: in every completed run of `update`, the outstanding-proof
query is invoked at exactly the last-verified value obtained in the same
run (the published `outstanding_txs` is that query's fallback value at the
published `last_verified`), including the fallback argument `0` when the
last-verified query itself failed. -/
theorem outstanding_txs_uses_last_verified (ds : StorageAccess)
    (st : SharedNetworkStatus)
    (h1 : ds.access_storage = .ok ())
    (h2 : ds.start_transaction = .ok ()) :
    ((SharedNetworkStatus.update ds st).2.last_verified =
        unwrapOr ds.get_last_verified_confirmed_block 0 ∧
      (SharedNetworkStatus.update ds st).2.outstanding_txs =
        unwrapOr
          (ds.count_outstanding_proofs
            ((SharedNetworkStatus.update ds st).2.last_verified)) 0) ∧
      ∀ e, ds.get_last_verified_confirmed_block = .error e →
        (SharedNetworkStatus.update ds st).2.outstanding_txs =
          unwrapOr (ds.count_outstanding_proofs 0) 0 := by
  rw [update_opens_ok ds st h1 h2]
  refine ⟨⟨rfl, rfl⟩, ?_⟩
  intro e he
  simp [assembledStatus, he, unwrapOr]

/-- Witness for C7: the all-failures backend, where the last-verified
query fails and the outstanding query is therefore invoked at `0`. -/
theorem outstanding_txs_uses_last_verified_witness :
    allFailBackend.access_storage = .ok () ∧
      (((SharedNetworkStatus.update allFailBackend sampleStatus).2.last_verified =
          unwrapOr allFailBackend.get_last_verified_confirmed_block 0 ∧
        (SharedNetworkStatus.update allFailBackend sampleStatus).2.outstanding_txs =
          unwrapOr
            (allFailBackend.count_outstanding_proofs
              ((SharedNetworkStatus.update allFailBackend
                  sampleStatus).2.last_verified)) 0) ∧
        ∀ e, allFailBackend.get_last_verified_confirmed_block = .error e →
          (SharedNetworkStatus.update allFailBackend sampleStatus).2.outstanding_txs =
            unwrapOr (allFailBackend.count_outstanding_proofs 0) 0) :=
  ⟨rfl,
    outstanding_txs_uses_last_verified allFailBackend sampleStatus rfl rfl⟩

/-- Claim C8: every snapshot assembled and published by the refresh loop
has `next_block_at_max` absent, and iterating the loop from the default
cell content can never make it present. -/
theorem next_block_at_max_always_none (ds : StorageAccess)
    (st : SharedNetworkStatus)
    (h1 : ds.access_storage = .ok ())
    (h2 : ds.start_transaction = .ok ()) :
    (SharedNetworkStatus.update ds st).2.next_block_at_max = none ∧
      ∀ dss : List StorageAccess,
        (runUpdater dss NetworkStatus.default).next_block_at_max = none := by
  constructor
  · rw [update_opens_ok ds st h1 h2]
    rfl
  · intro dss
    have key : ∀ (l : List StorageAccess) (s : SharedNetworkStatus),
        s.next_block_at_max = none →
        (runUpdater l s).next_block_at_max = none := by
      intro l
      induction l with
      | nil => intro s hs; exact hs
      | cons d rest ih =>
        intro s hs
        exact ih (updaterTick d s) (updaterTick_next_none d s hs)
    exact key dss NetworkStatus.default rfl

/-- Witness for C8: the all-failures backend (which still opens) publishes
a snapshot with `next_block_at_max` absent. -/
theorem next_block_at_max_always_none_witness :
    allFailBackend.access_storage = .ok () ∧
      ((SharedNetworkStatus.update allFailBackend
            sampleStatus).2.next_block_at_max =
          none ∧
        ∀ dss : List StorageAccess,
          (runUpdater dss NetworkStatus.default).next_block_at_max = none) :=
  ⟨rfl, next_block_at_max_always_none allFailBackend sampleStatus rfl rfl⟩

/-- Claim C9 counterexample: the launch operation does not take the
refresh period as a parameter and the loop does not tick at a configurable
period — at the concrete requested period of 1000 ms, no choice of the
actual parameters (the failure-reporting sink and the connection pool)
makes the spawned loop tick at 1000 ms; the period is the hard-coded
constant 30000 ms. -/
theorem period_not_configurable_counterexample :
    ¬ ∃ (pn : Bool) (pool : StorageAccess),
        start_updater_detached_period_ms pn pool = 1000 := by
  rintro ⟨pn, pool, h⟩
  simp [start_updater_detached_period_ms] at h

/-- Claim C9 (amended): the launch operation takes the failure-reporting
sink and the connection pool — not the refresh period — and the spawned
loop ticks at the fixed, hard-coded period of 30000 ms regardless of those
parameters. -/
theorem period_fixed_30000_ms (pn : Bool) (pool : StorageAccess) :
    start_updater_detached_period_ms pn pool = 30000 :=
  rfl

/-- Claim C10: whenever acquiring the connection and starting the
transaction both succeed, `update` returns `Ok` and overwrites the stored
snapshot — even when all five sub-queries and the commit fail, in which
case a previously populated snapshot is overwritten with the all-zero
snapshot. -/
theorem open_ok_always_overwrites (ds : StorageAccess)
    (st : SharedNetworkStatus)
    (h1 : ds.access_storage = .ok ())
    (h2 : ds.start_transaction = .ok ()) :
    ((SharedNetworkStatus.update ds st).1 = .ok () ∧
      (SharedNetworkStatus.update ds st).2 = assembledStatus ds) ∧
      SharedNetworkStatus.update allFailBackend sampleStatus =
        (.ok (),
          { next_block_at_max := none
            last_committed := 0
            last_verified := 0
            total_transactions := 0
            outstanding_txs := 0
            mempool_size := 0 }) := by
  refine ⟨⟨?_, ?_⟩, rfl⟩
  · rw [update_opens_ok ds st h1 h2]
  · rw [update_opens_ok ds st h1 h2]

/-- Witness for C10: the all-failures backend overwrites the populated
`sampleStatus` with the all-zero snapshot while returning `Ok`. -/
theorem open_ok_always_overwrites_witness :
    allFailBackend.access_storage = .ok () ∧
      (((SharedNetworkStatus.update allFailBackend sampleStatus).1 =
          .ok () ∧
        (SharedNetworkStatus.update allFailBackend sampleStatus).2 =
          assembledStatus allFailBackend) ∧
        SharedNetworkStatus.update allFailBackend sampleStatus =
          (.ok (),
            { next_block_at_max := none
              last_committed := 0
              last_verified := 0
              total_transactions := 0
              outstanding_txs := 0
              mempool_size := 0 })) :=
  ⟨rfl, open_ok_always_overwrites allFailBackend sampleStatus rfl rfl⟩
